import Mathlib

/-!
Verification development for the therapy (drug term) normalization engine:
a shallow embedding of `src/therapy/database.py`, `src/therapy/etl/merge.py`
and `src/therapy/etl/base.py`, together with theorems settling the frozen
claims about merged-record generation, cross-reference group discovery,
incremental synchronization and record lookup.

Records are modelled as Lean structures whose `Option` fields mirror
presence/absence of the corresponding dictionary keys; the DynamoDB
`therapy_concepts` table is modelled as an explicit store of identity rows
and reference rows; Python exceptions are modelled with `Except`.
-/

/-- Python-level failure outcomes relevant to the embedded code:
`recordNotFound` stands for the `RecordNotFoundError` raised by
`Database.get_record_by_id` / `get_records_by_type`, `typeError` for a
`TypeError` raised by the interpreter (e.g. hashing an unhashable value),
and `exception` for the bare `raise Exception` in `_new_load_therapy`. -/
inductive PyErr where
  | recordNotFound
  | typeError
  | exception
deriving DecidableEq, Repr

/-- A therapy record as stored in the `therapy_concepts` table: the
attribute keys used by `merge.py` and `etl/base.py`, each `Option` field
standing for presence of the corresponding dictionary key.
`label_and_type` and `item_type` are the DB-specific key attributes. -/
structure TherapyRec where
  label_and_type : String := ""
  item_type : String := "identity"
  concept_id : String
  src_name : String := ""
  label : Option String := none
  aliases : Option (List String) := none
  trade_names : Option (List String) := none
  xrefs : Option (List String) := none
  associated_with : Option (List String) := none
  approval_status : Option String := none
  approval_ratings : Option (List String) := none
  approval_year : Option (List Nat) := none
  has_indication : Option (List String) := none
  other_identifiers : Option (List String) := none
  merge_ref : Option String := none
deriving DecidableEq, Repr

/-- A reference (reverse-index) row of the `therapy_concepts` table:
`label_and_type = f"{term.lower()}##{item_type}"`, plus the concept id
sort key and the `item_type` attribute carried by every row. -/
structure RefRow where
  label_and_type : String
  concept_id : String
  item_type : String
deriving DecidableEq, Repr

/-- The `therapy_concepts` table.  Identity rows (whose `label_and_type`
ends in `##identity`) and reference rows are kept in separate lists; the
two key spaces cannot collide because a reference row's `label_and_type`
always ends in `##label`, `##trade_name`, `##alias`, `##xref` or
`##associated_with`. -/
structure Store where
  identities : List TherapyRec
  refs : List RefRow
deriving DecidableEq, Repr

/-- Python `str.lower()` (character-wise ASCII lowering suffices for the
identifiers and terms involved), defined over the character list so that
it evaluates inside the kernel. -/
def pyLower (s : String) : String :=
  ⟨s.data.map Char.toLower⟩

/-- An ASCII whitespace character, as stripped by Python `str.strip()`. -/
def pyWS (c : Char) : Bool :=
  c == ' ' || c == '\t' || c == '\n' || c == '\r'

/-- Python `str.strip()`: drop leading and trailing whitespace, defined
over the character list so that it evaluates inside the kernel. -/
def pyStrip (s : String) : String :=
  ⟨((s.data.dropWhile pyWS).reverse.dropWhile pyWS).reverse⟩

/-- The full-primary-key comparison of `Database.get_record_by_id`:
partition key `f"{concept_id.lower()}##identity"`, sort key the concept
id matched exactly (casing included). -/
def idKeyPred (concept_id : String) (t : TherapyRec) : Bool :=
  t.label_and_type == (pyLower concept_id) ++ "##identity"
    && t.concept_id == concept_id

/-- `Database.get_record_by_id` (src/therapy/database.py:146-167): a
`get_item` on the full primary key (`idKeyPred`).  A missing item is a
`KeyError` on `match['Item']`, turned into a raised
`RecordNotFoundError`. -/
def getRecordById (s : Store) (concept_id : String) : Except PyErr TherapyRec :=
  match s.identities.find? (idKeyPred concept_id) with
  | some t => Except.ok t
  | none => Except.error PyErr.recordNotFound

/-- `schemas.MatchType` (src/therapy/schemas.py:168-181), as far as its
member *names* matter to `get_records_by_type`. -/
inductive MatchType where
  | CONCEPT_ID
  | LABEL
  | TRADE_NAME
  | ALIAS
  | XREF
  | ASSOCIATED_WITH
  | FUZZY_MATCH
  | NO_MATCH
deriving DecidableEq, Repr

/-- The Python enum member name of a `MatchType`, used to build the
partition key in `get_records_by_type`. -/
def MatchType.pyName : MatchType → String
  | .CONCEPT_ID => "CONCEPT_ID"
  | .LABEL => "LABEL"
  | .TRADE_NAME => "TRADE_NAME"
  | .ALIAS => "ALIAS"
  | .XREF => "XREF"
  | .ASSOCIATED_WITH => "ASSOCIATED_WITH"
  | .FUZZY_MATCH => "FUZZY_MATCH"
  | .NO_MATCH => "NO_MATCH"

/-- `Database.get_records_by_type` (src/therapy/database.py:169-196):
query the table for rows whose `label_and_type` equals
`f"{query}##{match_type.name}".lower()`; when at least one row matches,
hydrate each row's concept id through `get_record_by_id` (whose
`RecordNotFoundError` propagates); otherwise raise `RecordNotFoundError`. -/
def getRecordsByType (s : Store) (query : String) (mt : MatchType) :
    Except PyErr (List TherapyRec) :=
  let pk := pyLower (query ++ "##" ++ mt.pyName)
  let items := s.refs.filter (fun r => r.label_and_type == pk)
  if items.length > 0 then
    (items.map RefRow.concept_id).mapM (getRecordById s)
  else
    Except.error PyErr.recordNotFound

/-- A Python value that can appear in the working sets of
`Merge._create_record_id_set`: either a string (a concept id) or a list of
strings (the whole `other_identifiers` value, when the code wraps it in a
set literal instead of splatting it). -/
inductive PyVal where
  | str : String → PyVal
  | strList : List String → PyVal
deriving DecidableEq, Repr

/-- Whether a `PyVal` is hashable in Python: strings are, lists are not. -/
def pyHashable : PyVal → Bool
  | .str _ => true
  | .strList _ => false

/-- A Python set of `PyVal`s, represented as a duplicate-free list (the
list order stands for the set's arbitrary-but-fixed iteration order). -/
abbrev PySet := List PyVal

/-- Set union (`|`). -/
def pyUnion (a b : PySet) : PySet :=
  a ++ b.filter (fun x => decide (x ∉ a))

/-- Set difference (`-`). -/
def pyDiff (a b : PySet) : PySet :=
  a.filter (fun x => decide (x ∉ b))

/-- Construction of a Python set literal from its element expressions:
raises `TypeError` when any element is unhashable (a list). -/
def mkPySet (elems : List PyVal) : Except PyErr PySet :=
  if elems.all pyHashable then Except.ok elems.dedup
  else Except.error PyErr.typeError

/-- A Python `for x in pending: acc |= f(x, acc)` accumulation loop over
set elements, propagating a raised exception from the body. -/
def expandWith (f : PyVal → PySet → Except PyErr PySet) :
    List PyVal → PySet → Except PyErr PySet
  | [], acc => Except.ok acc
  | x :: rest, acc =>
    match f x acc with
    | .error e => Except.error e
    | .ok r => expandWith f rest (pyUnion acc r)

/-- `Merge._create_record_id_set` (src/therapy/etl/merge.py:42-65).
The memo table `self._merged_groups` is never written in this version
(`create_merged_concepts` raises `NotImplementedError`), so the memo-hit
branch cannot fire; what remains of the lookup `record_id in
self._merged_groups` is the hashing of `record_id`, which raises
`TypeError` for a list.  `Database.get_record_by_id` raises on a missing
record, so the `if not db_record` branch is dead and the exception
propagates.  For a present record, `'other_identifiers' not in db_record`
returns `observed_id_set | {record_id}`; otherwise the set literal
`{db_record['other_identifiers']}` holds the whole list as a single
element and raises `TypeError` (lists are unhashable).  The recursive
expansion `for local_record_id in local_id_set - observed_id_set:
merged_id_set |= self._create_record_id_set(local_record_id,
merged_id_set)` is kept faithfully via `expandWith` (with `fuel` bounding
the recursion depth, as Python's recursion limit does) though it is
unreachable. -/
def createRecordIdSet (s : Store) : Nat → PyVal → PySet → Except PyErr PySet
  | 0, _, _ => Except.error PyErr.exception
  | fuel + 1, record_id, observed =>
    if pyHashable record_id then
      match record_id with
      | .strList _ => Except.error PyErr.typeError
      | .str cid =>
        match getRecordById s cid with
        | .error e => Except.error e
        | .ok rec =>
          match rec.other_identifiers with
          | none => Except.ok (pyUnion observed [record_id])
          | some ids =>
            match mkPySet [PyVal.strList ids] with
            | .error e => Except.error e
            | .ok localIdSet =>
              let merged :=
                pyUnion (pyUnion localIdSet observed) [PyVal.str rec.concept_id]
              expandWith (fun x acc => createRecordIdSet s fuel x acc)
                (pyDiff localIdSet observed) merged
    else Except.error PyErr.typeError

/-- The `record_order` key of `Merge._generate_merged_record`
(src/therapy/etl/merge.py:85-94): NCIt first, then ChEMBL, then DrugBank,
then everything else. -/
def recordOrder (t : TherapyRec) : Nat :=
  if t.src_name == "NCIt" then 1
  else if t.src_name == "ChEMBL" then 2
  else if t.src_name == "DrugBank" then 3
  else 4

/-- Insert a record into an already sorted list after all records of
less-or-equal `recordOrder`, as a stable sort does. -/
def insertByOrder (x : TherapyRec) : List TherapyRec → List TherapyRec
  | [] => [x]
  | y :: ys =>
    if recordOrder y ≤ recordOrder x then y :: insertByOrder x ys
    else x :: y :: ys

/-- `records.sort(key=record_order)`: Python's sort is stable, modelled by
a stable insertion sort. -/
def sortByOrder (l : List TherapyRec) : List TherapyRec :=
  l.foldl (fun acc x => insertByOrder x acc) []

/-- Python truthiness of an optional string (`if value:`): present and
non-empty. -/
def optStrTruthy : Option String → Bool
  | none => false
  | some v => v != ""

/-- Union of Python string sets represented as duplicate-free lists. -/
def strSetUnion (a b : List String) : List String :=
  a ++ b.filter (fun x => decide (x ∉ a))

/-- The `attrs` dictionary built by `Merge._generate_merged_record`:
set-valued attributes as Python sets (duplicate-free lists), the
accumulated pipe-joined concept id, the scalar attributes (present only
once assigned a truthy value), and the derived `label_and_type`. -/
structure MergedAttrs where
  concept_id : String
  label_and_type : String
  aliases : List String
  trade_names : List String
  xrefs : List String
  label : Option String := none
  approval_status : Option String := none
deriving DecidableEq, Repr

/-- The per-record step of the `for record in records` loop of
`_generate_merged_record`: union the present set fields, extend
`attrs['concept_id']` with `f'{attrs["concept_id"]}|{record["concept_id"]}'`,
and assign `label` / `approval_status` when not yet present and truthy. -/
def mergeStep (a : MergedAttrs) (rec : TherapyRec) : MergedAttrs :=
  let a := { a with
    aliases := match rec.aliases with
      | some v => strSetUnion a.aliases v.dedup
      | none => a.aliases,
    trade_names := match rec.trade_names with
      | some v => strSetUnion a.trade_names v.dedup
      | none => a.trade_names,
    xrefs := match rec.xrefs with
      | some v => strSetUnion a.xrefs v.dedup
      | none => a.xrefs }
  let a := { a with concept_id := a.concept_id ++ "|" ++ rec.concept_id }
  let a := match a.label with
    | some _ => a
    | none => if optStrTruthy rec.label then { a with label := rec.label } else a
  match a.approval_status with
  | some _ => a
  | none =>
    if optStrTruthy rec.approval_status then
      { a with approval_status := rec.approval_status }
    else a

/-- `Merge._generate_merged_record` (src/therapy/etl/merge.py:67-115).
Each member id is fetched with `Database.get_record_by_id`, which raises
on a missing record (making the `if record` falsy branch dead); found
records are sorted stably by `record_order` and folded; finally
`label_and_type = f'{attrs["concept_id"].lower()}##merger'`.  The member
ids are supplied as a list standing for the iteration order of the Python
set argument. -/
def generateMergedRecord (s : Store) (record_id_set : List String) :
    Except PyErr MergedAttrs := do
  let records ← record_id_set.mapM (getRecordById s)
  let sorted := sortByOrder records
  let init : MergedAttrs :=
    { concept_id := "", label_and_type := "",
      aliases := [], trade_names := [], xrefs := [] }
  let attrs := sorted.foldl mergeStep init
  pure { attrs with label_and_type := (pyLower attrs.concept_id) ++ "##merger" }

/-- A field value appearing in an `ExpressionAttributeValues` map of a
DynamoDB update expression: a string, a list of strings, or a list of
numbers. -/
inductive FieldVal where
  | str : String → FieldVal
  | strList : List String → FieldVal
  | natList : List Nat → FieldVal
deriving DecidableEq, Repr

/-- Apply a `SET field=value` clause to a record. -/
def setField (t : TherapyRec) (f : String) (v : FieldVal) : TherapyRec :=
  match f, v with
  | "label", .str s => { t with label := some s }
  | "aliases", .strList l => { t with aliases := some l }
  | "trade_names", .strList l => { t with trade_names := some l }
  | "xrefs", .strList l => { t with xrefs := some l }
  | "associated_with", .strList l => { t with associated_with := some l }
  | "has_indication", .strList l => { t with has_indication := some l }
  | "approval_ratings", .strList l => { t with approval_ratings := some l }
  | "approval_year", .natList l => { t with approval_year := some l }
  | _, _ => t

/-- Apply a `REMOVE field` clause to a record (removing an absent
attribute is a no-op, as in DynamoDB). -/
def removeField (t : TherapyRec) (f : String) : TherapyRec :=
  match f with
  | "label" => { t with label := none }
  | "aliases" => { t with aliases := none }
  | "trade_names" => { t with trade_names := none }
  | "xrefs" => { t with xrefs := none }
  | "associated_with" => { t with associated_with := none }
  | "has_indication" => { t with has_indication := none }
  | "approval_ratings" => { t with approval_ratings := none }
  | "approval_year" => { t with approval_year := none }
  | "merge_ref" => { t with merge_ref := none }
  | _ => t

/-- `therapies.update_item(Key=..., UpdateExpression="REMOVE ...")` as
issued by `_new_load_therapy`: remove the listed fields on the identity
row with the given primary key. -/
def updateItemRemove (s : Store) (lat cid : String) (fields : List String) :
    Store :=
  { s with identities := s.identities.map (fun t =>
      if t.label_and_type == lat && t.concept_id == cid then
        fields.foldl removeField t
      else t) }

/-- `therapies.update_item(Key=..., UpdateExpression="SET ...",
ExpressionAttributeValues=...)` as issued by `_new_load_therapy`: set the
listed fields on the identity row with the given primary key. -/
def updateItemSet (s : Store) (lat cid : String)
    (sets : List (String × FieldVal)) : Store :=
  { s with identities := s.identities.map (fun t =>
      if t.label_and_type == lat && t.concept_id == cid then
        sets.foldl (fun t p => setField t p.1 p.2) t
      else t) }

/-- Modelled from the spec: `Database.add_record` (called by
`_load_completed_therapy`; the method is absent from src).  §4.1
`put_identity(record)` is an upsert, idempotent on `concept_id`; §6 keys
the Identity/Reference table by `(label_and_type, concept_id)` with
`label_and_type = f"{lowercase(term)}##{item_type}"`.  The identity row is
stored under `(concept_id.lower()##identity, concept_id)` with its
`item_type` attribute set to `identity`. -/
def addRecord (s : Store) (t : TherapyRec) : Store :=
  let row := { t with
    label_and_type := (pyLower t.concept_id) ++ "##identity",
    item_type := "identity" }
  { s with identities :=
      (s.identities.filter (fun u =>
        !(u.label_and_type == row.label_and_type
            && u.concept_id == row.concept_id))) ++ [row] }

/-- Modelled from the spec: `Database.add_ref_record(term, concept_id,
item_type)` (called by `_load_completed_therapy` and `_new_load_therapy`;
the method is absent from src).  §3/§4.1: a Reference Entry is keyed by
`(lowercased-term, item-type)` → concept id, written as an idempotent
upsert; the stored concept id is lower-cased, matching the delete keys
`{"label_and_type": f"{term.lower()}##{item_type}", "concept_id":
concept_id.lower()}` built in `_new_load_therapy`. -/
def addRefRecord (s : Store) (term cid itype : String) : Store :=
  let row : RefRow :=
    { label_and_type := (pyLower term) ++ "##" ++ itype,
      concept_id := (pyLower cid),
      item_type := itype }
  { s with refs := (s.refs.filter (fun r => !(r == row))) ++ [row] }

/-- `self.database.batch.delete_item(Key=...)` on a reference row:
delete the row with the given primary key. -/
def batchDeleteRef (s : Store) (lat cid : String) : Store :=
  { s with refs := s.refs.filter (fun r =>
      !(r.label_and_type == lat && r.concept_id == cid)) }

/-- Modelled from the spec: `Database.delete_record(label_and_type,
concept_id)` (called by `perform_etl`; the method is absent from src).
§4.1 `delete_identity(concept_id)`: delete the single row with the given
primary key. -/
def deleteRecord (s : Store) (lat cid : String) : Store :=
  { s with identities := s.identities.filter (fun t =>
      !(t.label_and_type == lat && t.concept_id == cid)) }

/-- Modelled from the spec: the two-argument, case-sensitive
`Database.get_record_by_id(concept_id, True)` called by
`_new_load_therapy` (this newer signature is absent from src).  §4.1
`get_identity(concept_id, case_sensitive)` → Identity Record or "not
found"; the case-sensitive mode is the exact primary-key lookup. -/
def getRecordByIdCS (s : Store) (cid : String) : Option TherapyRec :=
  s.identities.find? (fun t =>
    t.label_and_type == (pyLower cid) ++ "##identity" && t.concept_id == cid)

/-- Modelled from the spec: the `ITEM_TYPES` mapping imported from
`therapy/__init__.py` (absent from src): attribute name → item type, per
`schemas.ItemTypes` (src/therapy/schemas.py:275-283) in declaration
order (label, trade_names, aliases, xrefs, associated_with). -/
def ITEM_TYPES : List (String × String) :=
  [("label", "label"), ("trade_names", "trade_name"), ("aliases", "alias"),
   ("xrefs", "xref"), ("associated_with", "associated_with")]

/-- The set-valued indexable attribute of a record named by an
`ITEM_TYPES` key other than `label`. -/
def getSetAttr (t : TherapyRec) : String → Option (List String)
  | "aliases" => t.aliases
  | "trade_names" => t.trade_names
  | "xrefs" => t.xrefs
  | "associated_with" => t.associated_with
  | _ => none

/-- The body of the `for attr_type, item_type in ITEM_TYPES.items()` loop
of `_load_completed_therapy` (src/therapy/etl/base.py:257-265), for the
record `t` with concept id `cid`: for a truthy label write one Reference
Entry; for a truthy set attribute write one Reference Entry per member of
`{v.lower() for v in value}` (modelled by lower-casing and deduplicating
in list order). -/
def loadRefStep (t : TherapyRec) (cid : String) (s : Store)
    (p : String × String) : Store :=
  if p.1 == "label" then
    match t.label with
    | some v => if v != "" then addRefRecord s v cid p.2 else s
    | none => s
  else
    match getSetAttr t p.1 with
    | some v =>
      if v.isEmpty then s
      else ((v.map pyLower).dedup).foldl
        (fun s item => addRefRecord s item cid p.2) s
    | none => s

/-- `Base._load_completed_therapy` (src/therapy/etl/base.py:250-265):
`add_record` the identity row, then write the Reference Entries of every
truthy indexable attribute. -/
def loadCompletedTherapy (s : Store) (t : TherapyRec) : Store :=
  let s := addRecord s t
  ITEM_TYPES.foldl (loadRefStep t t.concept_id) s

/-- Python set equality of two lists of strings. -/
def listSetEq (a b : List String) : Bool :=
  decide (a.toFinset = b.toFinset)

/-- The body of the set-field loop of `_new_load_therapy`
(src/therapy/etl/base.py:313-337), for pair `p = (item_type,
property_name)`: when the new and stored sets differ, queue `SET
property_name = list(existing_field)` if the new set is non-empty (note
the code stores the *existing* value here), else queue `REMOVE
property_name`; add Reference Entries for the new-minus-stored values,
delete Reference Entries for the stored-minus-new values, and for `xref`
additionally queue `REMOVE merge_ref`.  The state `st` threads the store
and the accumulated remove/set expressions. -/
def syncSetFieldStep (cid : String) (t existing : TherapyRec)
    (st : Store × List String × List (String × FieldVal))
    (p : String × String) : Store × List String × List (String × FieldVal) :=
  let newField := ((getSetAttr t p.2).getD []).dedup
  let existingField := ((getSetAttr existing p.2).getD []).dedup
  if listSetEq newField existingField then st
  else
    let (s, removes, sets) := st
    let (removes, sets) :=
      if !newField.isEmpty then
        (removes, sets ++ [(p.2, FieldVal.strList existingField)])
      else if !existingField.isEmpty then
        (removes ++ [p.2], sets)
      else (removes, sets)
    let s := (newField.filter (fun x => decide (x ∉ existingField))).foldl
      (fun s nr => addRefRecord s nr cid p.1) s
    let s := (existingField.filter (fun x => decide (x ∉ newField))).foldl
      (fun s oldRef =>
        batchDeleteRef s ((pyLower oldRef) ++ "##" ++ p.1) (pyLower cid)) s
    let removes := if p.1 == "xref" then removes ++ ["merge_ref"] else removes
    (s, removes, sets)

/-- One iteration of the detail-property loop of `_new_load_therapy`
(src/therapy/etl/base.py:339-351), for a string-valued property: when the
sets differ, queue `REMOVE prop` if the *stored* set is empty, else queue
`SET prop = list(new_prop)`. -/
def syncDetailStr (prop : String) (newV oldV : List String)
    (removes : List String) (sets : List (String × FieldVal)) :
    List String × List (String × FieldVal) :=
  if newV.toFinset = oldV.toFinset then (removes, sets)
  else if oldV.isEmpty then (removes ++ [prop], sets)
  else (removes, sets ++ [(prop, FieldVal.strList newV.dedup)])

/-- Same as `syncDetailStr` for the numeric `approval_year` property. -/
def syncDetailNat (prop : String) (newV oldV : List Nat)
    (removes : List String) (sets : List (String × FieldVal)) :
    List String × List (String × FieldVal) :=
  if newV.toFinset = oldV.toFinset then (removes, sets)
  else if oldV.isEmpty then (removes ++ [prop], sets)
  else (removes, sets ++ [(prop, FieldVal.natList newV.dedup)])

/-- `Base._new_load_therapy` (src/therapy/etl/base.py:267-369).  A new
concept id (absent from the pre-load `self._existing_ids`) goes through
`_load_completed_therapy`; an existing one is fetched case-sensitively
(`raise Exception` when absent), diffed field by field with Reference
Entry deltas issued along the way, and finally the queued `REMOVE`/`SET`
update expressions are applied to the identity row keyed by
`(existing['concept_id'].lower()##identity, concept_id)`. -/
def newLoadTherapy (s : Store) (existing_ids : List String)
    (t : TherapyRec) : Except PyErr Store :=
  let cid := t.concept_id
  if cid ∉ existing_ids then Except.ok (loadCompletedTherapy s t)
  else
    match getRecordByIdCS s cid with
    | none => Except.error PyErr.exception
    | some existing =>
      let st : Store × List String × List (String × FieldVal) := (s, [], [])
      let st :=
        if t.label == existing.label then st
        else if optStrTruthy t.label && optStrTruthy existing.label then
          let lv := t.label.getD ""
          let ev := existing.label.getD ""
          let s1 := batchDeleteRef st.1 ((pyLower ev) ++ "##label") (pyLower cid)
          let s1 := addRefRecord s1 (pyLower lv) cid "label"
          (s1, st.2.1, st.2.2 ++ [("label", FieldVal.str lv)])
        else if optStrTruthy t.label then
          let lv := t.label.getD ""
          (addRefRecord st.1 (pyLower lv) cid "label", st.2.1,
            st.2.2 ++ [("label", FieldVal.str lv)])
        else if optStrTruthy existing.label then
          let ev := existing.label.getD ""
          (batchDeleteRef st.1 ((pyLower ev) ++ "##label") (pyLower cid),
            st.2.1 ++ ["label"], st.2.2)
        else st
      let st := [("alias", "aliases"), ("trade_name", "trade_names"),
        ("xref", "xrefs"),
        ("associated_with", "associated_with")].foldl
          (syncSetFieldStep cid t existing) st
      let s2 := st.1
      let rs := syncDetailStr "has_indication" (t.has_indication.getD [])
        (existing.has_indication.getD []) st.2.1 st.2.2
      let rs := syncDetailStr "approval_ratings" (t.approval_ratings.getD [])
        (existing.approval_ratings.getD []) rs.1 rs.2
      let rs := syncDetailNat "approval_year" (t.approval_year.getD [])
        (existing.approval_year.getD []) rs.1 rs.2
      let lat := (pyLower existing.concept_id) ++ "##identity"
      let s2 := if rs.1.isEmpty then s2 else updateItemRemove s2 lat cid rs.1
      let s2 := if rs.2.isEmpty then s2 else updateItemSet s2 lat cid rs.2
      Except.ok s2

/-- `value_set = {v.strip() for v in value}` of `_prepare_therapy`:
whitespace-strip each member and deduplicate. -/
def cleanList (v : List String) : List String :=
  (v.map pyStrip).dedup

/-- The `label` iteration of `_prepare_therapy`
(src/therapy/etl/base.py:386-396): a present `None` value is deleted, a
present string is stripped. -/
def prepLabel (t : TherapyRec) : TherapyRec :=
  match t.label with
  | none => t
  | some v => { t with label := some (pyStrip v) }

/-- The `trade_names` iteration of `_prepare_therapy`: delete an empty
value, otherwise strip/deduplicate, remove the (already stripped) label
when present, and delete the whole attribute when more than 20 values
remain. -/
def prepTradeNames (t : TherapyRec) : TherapyRec :=
  match t.trade_names with
  | none => t
  | some v =>
    if v.isEmpty then { t with trade_names := none }
    else
      let value := cleanList v
      let value := match t.label with
        | some lab => value.erase lab
        | none => value
      if 20 < value.length then { t with trade_names := none }
      else { t with trade_names := some value }

/-- The cleaned `aliases` value computed by the `aliases` iteration of
`_prepare_therapy`, given the record as it stands when that iteration
runs: strip/deduplicate, subtract the (already processed) trade names
when that attribute is still present, then remove the label when
present. -/
def prepAliasesValue (t : TherapyRec) (v : List String) : List String :=
  let vset := cleanList v
  let value := match t.trade_names with
    | some tn => vset.filter (fun x => decide (x ∉ tn))
    | none => vset
  match t.label with
  | some lab => value.erase lab
  | none => value

/-- The `aliases` iteration of `_prepare_therapy`: delete an empty value,
otherwise clean via `prepAliasesValue` and delete the whole attribute
when more than 20 values remain. -/
def prepAliases (t : TherapyRec) : TherapyRec :=
  match t.aliases with
  | none => t
  | some v =>
    if v.isEmpty then { t with aliases := none }
    else
      let value := prepAliasesValue t v
      if 20 < value.length then { t with aliases := none }
      else { t with aliases := some value }

/-- The `xrefs` iteration of `_prepare_therapy`: delete an empty value,
otherwise strip/deduplicate and enforce the 20-value cap (no label or
trade-name subtraction for this attribute). -/
def prepXrefs (t : TherapyRec) : TherapyRec :=
  match t.xrefs with
  | none => t
  | some v =>
    if v.isEmpty then { t with xrefs := none }
    else
      let value := cleanList v
      if 20 < value.length then { t with xrefs := none }
      else { t with xrefs := some value }

/-- The `associated_with` iteration of `_prepare_therapy`: same shape as
`prepXrefs`. -/
def prepAssociatedWith (t : TherapyRec) : TherapyRec :=
  match t.associated_with with
  | none => t
  | some v =>
    if v.isEmpty then { t with associated_with := none }
    else
      let value := cleanList v
      if 20 < value.length then { t with associated_with := none }
      else { t with associated_with := some value }

/-- The `has_indication` compression of `_prepare_therapy`
(src/therapy/etl/base.py:421-438): a truthy list is deduplicated (the
`json.dumps` row encoding is abstracted to the already-encoded strings),
a falsy present value is deleted. -/
def prepIndication (t : TherapyRec) : TherapyRec :=
  match t.has_indication with
  | none => t
  | some l => if l.isEmpty then { t with has_indication := none }
    else { t with has_indication := some l.dedup }

/-- `Base._prepare_therapy` (src/therapy/etl/base.py:371-445), composed
in `ITEM_TYPES` iteration order (label, trade_names, aliases, xrefs,
associated_with) followed by the `has_indication` compression.  The rules
application (`therapy/etl/rules.py`, absent from src and not described by
the spec) is modelled as the identity; `Drug` validation only rejects
malformed input; the final `approval_ratings`/`approval_year` step only
deletes present-`None` values, which this model cannot represent, so it
is a no-op. -/
def prepareTherapy (t : TherapyRec) : TherapyRec :=
  prepIndication (prepAssociatedWith (prepXrefs (prepAliases
    (prepTradeNames (prepLabel t)))))

/-- `Base._load_therapy` (src/therapy/etl/base.py:447-458): prepare the
raw record, synchronize it, and report its concept id as added. -/
def loadTherapy (s : Store) (existing_ids : List String)
    (raw : TherapyRec) : Except PyErr (Store × String) :=
  match newLoadTherapy s existing_ids (prepareTherapy raw) with
  | .error e => Except.error e
  | .ok s1 => Except.ok (s1, (prepareTherapy raw).concept_id)

/-- `Base.perform_etl` (src/therapy/etl/base.py:80-94) restricted to its
load-and-cleanup behavior: `_transform_data` calls `_load_therapy` once
per extracted record (its docstring), collecting `self._added_ids`;
afterwards every concept id of the pre-load snapshot `self._existing_ids`
has its identity row deleted via
`delete_record(f"{old_concept.lower()}##identity", old_concept)`
(`_extract_data` and `_load_meta` perform I/O and metadata writes outside
these claims). -/
def performEtl (s : Store) (existing_ids : List String)
    (raws : List TherapyRec) : Except PyErr (Store × List String) :=
  match raws.foldlM (fun (p : Store × List String) raw =>
      match loadTherapy p.1 existing_ids raw with
      | .error e => Except.error e
      | .ok (s1, cid) => Except.ok (s1, p.2 ++ [cid])) (s, []) with
  | .error e => Except.error e
  | .ok (s1, added) =>
    let s2 := existing_ids.foldl (fun s old =>
      deleteRecord s ((pyLower old) ++ "##identity") old) s1
    Except.ok (s2, added)

/-- The indexed terms of an Identity Record, paired with their item
types: the label plus every member of the four set-valued attributes. -/
def recordTerms (t : TherapyRec) : List (String × String) :=
  (match t.label with | some v => [(v, "label")] | none => [])
  ++ ((t.aliases.getD []).map (fun a => (a, "alias")))
  ++ ((t.trade_names.getD []).map (fun a => (a, "trade_name")))
  ++ ((t.xrefs.getD []).map (fun a => (a, "xref")))
  ++ ((t.associated_with.getD []).map (fun a => (a, "associated_with")))

/-- Number of Reference Entries for a given term/item-type pointing at a
given concept id. -/
def refCountFor (s : Store) (term itype cid : String) : Nat :=
  (s.refs.filter (fun r =>
    r.label_and_type == (pyLower term) ++ "##" ++ itype
      && r.concept_id == (pyLower cid))).length

/-- The reference/identity consistency invariant exactly as the claim
states it: every term occurring in a stored Identity Record's
label/aliases/trade_names/xrefs/associated_with has exactly one Reference
Entry of the matching item type pointing at that record's concept id, and
every Reference Entry corresponds to a term of the record it points to. -/
def refConsistent (s : Store) : Prop :=
  (∀ t ∈ s.identities, ∀ p ∈ recordTerms t, refCountFor s p.1 p.2 t.concept_id = 1)
  ∧ (∀ r ∈ s.refs, ∃ t ∈ s.identities, ∃ p ∈ recordTerms t,
      r.label_and_type = (pyLower p.1) ++ "##" ++ p.2
        ∧ r.concept_id = (pyLower t.concept_id))

instance (s : Store) : Decidable (refConsistent s) := by
  unfold refConsistent
  infer_instance

/-- A store is well-formed when every identity row is keyed by its own
concept id: `label_and_type = f"{concept_id.lower()}##identity"`, as
`add_record` writes it. -/
def wellFormedStore (s : Store) : Prop :=
  ∀ t ∈ s.identities, t.label_and_type = (pyLower t.concept_id) ++ "##identity"

instance (s : Store) : Decidable (wellFormedStore s) := by
  unfold wellFormedStore
  infer_instance

/-- The cleaned `aliases` candidate of `_prepare_therapy` computed from a
raw record: the record is first taken through the `label` and
`trade_names` iterations, then the `aliases` iteration's cleaned value is
read off (empty when the attribute is absent or empty). -/
def aliasCandidate (t : TherapyRec) : List String :=
  match (prepTradeNames (prepLabel t)).aliases with
  | none => []
  | some v =>
    if v.isEmpty then []
    else prepAliasesValue (prepTradeNames (prepLabel t)) v

/-- RxNorm phenobarbital-style record: highest-priority source under
`schemas.SourcePriority`, with a label. -/
def rxRecC1 : TherapyRec :=
  { label_and_type := "rxcui:100##identity", concept_id := "rxcui:100",
    src_name := "RxNorm", label := some "X", aliases := some ["ra"],
    xrefs := some ["xr"] }

/-- NCIt record of the same group, with a different label. -/
def ncitRecC1 : TherapyRec :=
  { label_and_type := "ncit:c1##identity", concept_id := "ncit:C1",
    src_name := "NCIt", label := some "Y", aliases := some ["na"] }

/-- Two-member concept group store for the merged-record claims. -/
def storeC1 : Store := ⟨[rxRecC1, ncitRecC1], []⟩

/-- Singleton-group store: one RxNorm record, as in the repository's own
`hydrocorticosteroid_merged` test fixture. -/
def storeC7 : Store :=
  ⟨[{ label_and_type := "rxcui:19##identity", concept_id := "rxcui:19",
      src_name := "RxNorm", label := some "17-hydrocorticosteroid" }], []⟩

/-- A symmetric two-record cross-reference component (the shape of every
group in the repository's `test_merge.py` fixtures). -/
def storeC2 : Store :=
  ⟨[{ label_and_type := "ncit:c739##identity", concept_id := "ncit:C739",
      src_name := "NCIt", other_identifiers := some ["chemidplus:50-06-6"] },
    { label_and_type := "chemidplus:50-06-6##identity",
      concept_id := "chemidplus:50-06-6", src_name := "ChemIDplus",
      other_identifiers := some ["ncit:C739"] }], []⟩

/-- Stored identity record with one alias, plus its Reference Entry: a
consistent one-record store. -/
def storedC3 : TherapyRec :=
  { label_and_type := "chembl:1##identity", concept_id := "chembl:1",
    aliases := some ["A"] }

/-- The consistent pre-synchronization store for the update claims. -/
def storeC3 : Store :=
  ⟨[storedC3], [⟨"a##alias", "chembl:1", "alias"⟩]⟩

/-- A fresh extraction of the same concept whose alias set changed from
`{"A"}` to `{"B"}`. -/
def freshC3 : TherapyRec := { concept_id := "chembl:1", aliases := some ["B"] }

/-- Pre-existing identity record (with its label Reference Entry) that is
re-extracted unchanged during the ETL run. -/
def storeC4 : Store :=
  ⟨[{ label_and_type := "chembl:1##identity", concept_id := "chembl:1",
      label := some "Foo" }], [⟨"foo##label", "chembl:1", "label"⟩]⟩

/-- The unchanged re-extraction of the concept stored in `storeC4`. -/
def freshC4 : TherapyRec := { concept_id := "chembl:1", label := some "Foo" }

/-- A raw record with 21 distinct aliases one of which equals the label:
after label subtraction only 20 remain, so the cap does not fire. -/
def recC9 : TherapyRec :=
  { concept_id := "chembl:9", label := some "L",
    aliases := some ["L", "a01", "a02", "a03", "a04", "a05", "a06", "a07",
      "a08", "a09", "a10", "a11", "a12", "a13", "a14", "a15", "a16", "a17",
      "a18", "a19", "a20"] }

/-- A raw record with 21 distinct aliases sharing nothing with the label,
so the cleaned candidate exceeds the cap. -/
def recC9W : TherapyRec :=
  { concept_id := "chembl:9", label := some "L",
    aliases := some ["a01", "a02", "a03", "a04", "a05", "a06", "a07",
      "a08", "a09", "a10", "a11", "a12", "a13", "a14", "a15", "a16", "a17",
      "a18", "a19", "a20", "a21"] }

/-- One-record well-formed store for the exact-case lookup witness. -/
def storeC10 : Store :=
  ⟨[{ label_and_type := "ncit:c1##identity", concept_id := "ncit:C1" }], []⟩

/-- Whether a table row is an alias Reference Entry. -/
def isAliasRow (r : RefRow) : Bool :=
  r.item_type == "alias"

/-- Claim C1: the claim states that `_generate_merged_record` takes each
scalar attribute from the highest-priority member under the fixed
priority RxNorm > NCIt > HemOnc > DrugBank > Drugs@FDA > Guide to
Pharmacology > ChEMBL > ChemIDplus > Wikidata (`schemas.SourcePriority`).
The code instead sorts with NCIt > ChEMBL > DrugBank > everything else:
in a group whose RxNorm member has label `"X"` and whose NCIt member has
label `"Y"`, the merged label is `"Y"` under either supplied order,
whereas the claimed priority requires `"X"`.  (The set-attribute union
part of the claim does hold, shown in the last conjunct.) -/
theorem c1_code_divergence :
    ((generateMergedRecord storeC1 ["rxcui:100", "ncit:C1"]).toOption.map
        MergedAttrs.label = some (some "Y"))
    ∧ ((generateMergedRecord storeC1 ["ncit:C1", "rxcui:100"]).toOption.map
        MergedAttrs.label = some (some "Y"))
    ∧ ((generateMergedRecord storeC1 ["rxcui:100", "ncit:C1"]).toOption.map
        MergedAttrs.aliases = some ["na", "ra"])
    ∧ ((generateMergedRecord storeC1 ["ncit:C1", "rxcui:100"]).toOption.map
        MergedAttrs.aliases = some ["na", "ra"]) := by
  exact ⟨rfl, rfl, rfl, rfl⟩

/-- Claim C2: the claim states that `_create_record_id_set` returns the
full connected component for every member of a cross-reference-connected
pair.  On a store with two symmetrically cross-referenced records the
code instead raises: `local_id_set = {db_record['other_identifiers']}`
wraps the whole list as a single set element, and hashing a list raises
`TypeError`, from either seed. -/
theorem c2_code_divergence :
    createRecordIdSet storeC2 10 (PyVal.str "ncit:C739") []
      = Except.error PyErr.typeError
    ∧ createRecordIdSet storeC2 10 (PyVal.str "chemidplus:50-06-6") []
      = Except.error PyErr.typeError := by
  exact ⟨rfl, rfl⟩

/-- Claim C3: the claim states that synchronizing a fresh record whose
alias set changed from `{"A"}` to `{"B"}` updates the stored field to the
fresh value.  The code queues `update_values[ref] =
list(existing_field)`, so the stored record keeps `aliases = ["A"]`,
while the Reference Entries are nevertheless updated to the delta (entry
`a##alias` deleted, `b##alias` added). -/
theorem c3_code_divergence :
    loadTherapy storeC3 ["chembl:1"] freshC3
      = Except.ok (⟨[storedC3], [⟨"b##alias", "chembl:1", "alias"⟩]⟩, "chembl:1")
    ∧ storedC3.aliases = some ["A"]
    ∧ (prepareTherapy freshC3).aliases = some ["B"] := by
  exact ⟨rfl, rfl, rfl⟩

/-- Claim C4: the claim states that the post-run cleanup deletes exactly
the untouched pre-existing concept IDs (with their Reference Entries) and
that every touched concept remains.  `self._existing_ids` is never pruned
during loading, so `perform_etl` deletes the identity row of a concept
that was just re-loaded — and deletes no Reference Entries at all. -/
theorem c4_code_divergence :
    performEtl storeC4 ["chembl:1"] [freshC4]
      = Except.ok (⟨[], [⟨"foo##label", "chembl:1", "label"⟩]⟩, ["chembl:1"])
    ∧ storeC4.identities ≠ [] := by
  exact ⟨rfl, by decide⟩

/-- Claim C5: the claim states the reference/identity consistency
invariant after synchronization.  Starting from a consistent store
(first conjunct) and synchronizing a fresh record whose alias set changed
from `{"A"}` to `{"B"}` yields a store (second conjunct) in which the
stored alias `"A"` has zero Reference Entries and the entry `b##alias`
matches no stored attribute — the invariant fails (third conjunct). -/
theorem c5_invariant_violation :
    refConsistent storeC3
    ∧ loadTherapy storeC3 ["chembl:1"] freshC3
      = Except.ok (⟨[storedC3], [⟨"b##alias", "chembl:1", "alias"⟩]⟩, "chembl:1")
    ∧ ¬ refConsistent ⟨[storedC3], [⟨"b##alias", "chembl:1", "alias"⟩]⟩ := by
  refine ⟨by decide, rfl, by decide⟩

/-- Claim C6: the claim states that `_create_record_id_set` on a concept
id absent from the store returns the dangling singleton `{id}` without
raising.  `Database.get_record_by_id` raises `RecordNotFoundError` for a
missing record (the `if not db_record` branch of `merge.py` is dead), so
the call propagates the exception instead of returning
`{"ncit:c000000"}`. -/
theorem c6_code_divergence :
    createRecordIdSet (⟨[], []⟩ : Store) 10 (PyVal.str "ncit:c000000") []
      = Except.error PyErr.recordNotFound
    ∧ (createRecordIdSet (⟨[], []⟩ : Store) 10
        (PyVal.str "ncit:c000000") []).toOption
      ≠ some [PyVal.str "ncit:c000000"] := by
  exact ⟨rfl, by decide⟩

/-- Claim C7: the claim states that the merged record's concept id is the
pipe-joined member list with no leading or trailing separator.  The fold
starts from `attrs['concept_id'] = ''`, so every merged id carries a
leading pipe: the singleton group `{rxcui:19}` yields `"|rxcui:19"` and
lookup key `"|rxcui:19##merger"` (the repository's own fixture expects
`"rxcui:19"` / `"rxcui:19##merger"`). -/
theorem c7_code_divergence :
    (generateMergedRecord storeC7 ["rxcui:19"]).toOption.map
      MergedAttrs.concept_id = some "|rxcui:19"
    ∧ (generateMergedRecord storeC7 ["rxcui:19"]).toOption.map
      MergedAttrs.label_and_type = some "|rxcui:19##merger" := by
  exact ⟨rfl, rfl⟩

/-- Claim C8 counterexample: `get_records_by_type` raises
`RecordNotFoundError` for a query with no match, rather than returning an
empty (no-match) result as the claim states. -/
theorem c8_counterexample :
    getRecordsByType (⟨[], []⟩ : Store) "foo" MatchType.LABEL
      = Except.error PyErr.recordNotFound := by
  exact rfl

/-- Claim C8 (amended): `get_records_by_type` treats absence of any
matching reference row not as an empty result but as a raised
`RecordNotFoundError` (its own docstring documents the raise; the
conversion to a `NO_MATCH` response happens in the caller, outside this
module): whenever no table row matches the derived partition key, the
call raises. -/
theorem c8_raises_on_no_match (s : Store) (q : String) (mt : MatchType)
    (h : s.refs.filter (fun r =>
      r.label_and_type == pyLower (q ++ "##" ++ mt.pyName)) = []) :
    getRecordsByType s q mt = Except.error PyErr.recordNotFound := by
  unfold getRecordsByType
  simp only [h, List.length_nil, gt_iff_lt, lt_self_iff_false, if_false,
    Nat.lt_irrefl, reduceIte]

/-- Witness for `c8_raises_on_no_match` at the empty store with query
`"foo"` and match type `LABEL`. -/
theorem c8_raises_on_no_match_witness :
    ((⟨[], []⟩ : Store).refs.filter (fun r =>
        r.label_and_type == pyLower ("foo" ++ "##" ++ MatchType.LABEL.pyName))
      = [])
    ∧ getRecordsByType ⟨[], []⟩ "foo" MatchType.LABEL
      = Except.error PyErr.recordNotFound :=
  ⟨rfl, c8_raises_on_no_match ⟨[], []⟩ "foo" MatchType.LABEL rfl⟩

/-- Claim C9 counterexample: a record with 21 distinct aliases, one of
which equals the label, does **not** lose its `aliases` attribute — the
label is subtracted first, leaving 20 values, so the attribute survives
preparation and 20 alias Reference Entries are written. -/
theorem c9_counterexample :
    (prepareTherapy recC9).aliases ≠ none
    ∧ ((loadCompletedTherapy ⟨[], []⟩ (prepareTherapy recC9)).refs.filter
        isAliasRow).length = 20 := by
  exact ⟨by decide, rfl⟩

lemma prepXrefs_aliases (t : TherapyRec) : (prepXrefs t).aliases = t.aliases := by
  unfold prepXrefs
  split
  · rfl
  · split
    · rfl
    · dsimp only
      split <;> rfl

lemma prepAssociatedWith_aliases (t : TherapyRec) :
    (prepAssociatedWith t).aliases = t.aliases := by
  unfold prepAssociatedWith
  split
  · rfl
  · split
    · rfl
    · dsimp only
      split <;> rfl

lemma prepIndication_aliases (t : TherapyRec) :
    (prepIndication t).aliases = t.aliases := by
  unfold prepIndication
  split
  · rfl
  · split <;> rfl

lemma prepAliases_none (t : TherapyRec) (v : List String)
    (hv : t.aliases = some v) (hne : v.isEmpty = false)
    (h : 20 < (prepAliasesValue t v).length) :
    (prepAliases t).aliases = none := by
  unfold prepAliases
  rw [hv]
  simp only [hne, Bool.false_eq_true, if_false, h, if_true, reduceIte]

lemma addRefRecord_filter_alias (s : Store) (term cid itype : String)
    (hi : (itype == "alias") = false)
    (h : s.refs.filter isAliasRow = []) :
    (addRefRecord s term cid itype).refs.filter isAliasRow = [] := by
  unfold addRefRecord
  dsimp only
  rw [List.filter_append]
  have hall := List.filter_eq_nil_iff.mp h
  apply List.append_eq_nil.mpr
  constructor
  · apply List.filter_eq_nil_iff.mpr
    intro a ha
    exact hall a (List.mem_of_mem_filter ha)
  · apply List.filter_eq_nil_iff.mpr
    intro a ha
    rw [List.mem_singleton.mp ha]
    simp [isAliasRow, hi]

lemma foldl_addRef_filter_alias (terms : List String) (cid itype : String)
    (hi : (itype == "alias") = false) :
    ∀ s : Store, s.refs.filter isAliasRow = [] →
      ((terms.foldl (fun s item => addRefRecord s item cid itype) s).refs.filter
        isAliasRow = []) := by
  induction terms with
  | nil => intro s h; exact h
  | cons x xs ih =>
    intro s h
    exact ih _ (addRefRecord_filter_alias s x cid itype hi h)

lemma loadRefStep_filter_alias (t : TherapyRec) (cid : String) (s : Store)
    (p : String × String)
    (hcase : (p.2 == "alias") = false
      ∨ ((p.1 == "label") = false ∧ getSetAttr t p.1 = none))
    (h : s.refs.filter isAliasRow = []) :
    (loadRefStep t cid s p).refs.filter isAliasRow = [] := by
  unfold loadRefStep
  rcases hcase with hne | ⟨hl, hnone⟩
  · cases hpl : (p.1 == "label") with
    | true =>
      simp only [hpl, if_true, reduceIte]
      cases t.label with
      | none => exact h
      | some lv =>
        dsimp only
        split
        · exact addRefRecord_filter_alias s lv cid p.2 hne h
        · exact h
    | false =>
      simp only [hpl, Bool.false_eq_true, if_false, reduceIte]
      cases hga : getSetAttr t p.1 with
      | none => exact h
      | some v =>
        dsimp only
        split
        · exact h
        · exact foldl_addRef_filter_alias ((v.map pyLower).dedup) cid p.2 hne s h
  · simp only [hl, Bool.false_eq_true, if_false, hnone, reduceIte]
    exact h

/-- Claim C9 (amended): the attribute is dropped, and no alias Reference
Entries are written, when the *cleaned* alias value still exceeds 20
entries — i.e. after whitespace-stripping and deduplication, after
subtracting the trade names (when that attribute survived its own
processing), and after removing the label.  (As the counterexample shows,
21 raw distinct aliases do not suffice when one of them equals the
label.) -/
theorem c9_cap_drop (t : TherapyRec) (h : 20 < (aliasCandidate t).length) :
    (prepareTherapy t).aliases = none
    ∧ (loadCompletedTherapy ⟨[], []⟩ (prepareTherapy t)).refs.filter
        isAliasRow = [] := by
  have h1 : (prepAliases (prepTradeNames (prepLabel t))).aliases = none := by
    unfold aliasCandidate at h
    cases hv : (prepTradeNames (prepLabel t)).aliases with
    | none => rw [hv] at h; simp at h
    | some v =>
      rw [hv] at h
      dsimp only at h
      cases he : v.isEmpty with
      | true => rw [he] at h; simp at h
      | false =>
        rw [he] at h
        simp only [Bool.false_eq_true, if_false, reduceIte] at h
        exact prepAliases_none _ v hv he h
  have h2 : (prepareTherapy t).aliases = none := by
    unfold prepareTherapy
    rw [prepIndication_aliases, prepAssociatedWith_aliases, prepXrefs_aliases, h1]
  refine ⟨h2, ?_⟩
  unfold loadCompletedTherapy
  simp only [ITEM_TYPES, List.foldl_cons, List.foldl_nil]
  refine loadRefStep_filter_alias _ _ _ _ (Or.inl rfl)
    (loadRefStep_filter_alias _ _ _ _ (Or.inl rfl)
      (loadRefStep_filter_alias _ _ _ _ (Or.inr ⟨rfl, ?_⟩)
        (loadRefStep_filter_alias _ _ _ _ (Or.inl rfl)
          (loadRefStep_filter_alias _ _ _ _ (Or.inl rfl) rfl))))
  exact h2

/-- Witness for `c9_cap_drop`: a record whose 21 distinct aliases share
nothing with its label keeps 21 cleaned values, so the attribute is
dropped and no alias Reference Entries are written. -/
theorem c9_cap_drop_witness :
    20 < (aliasCandidate recC9W).length
    ∧ ((prepareTherapy recC9W).aliases = none
      ∧ (loadCompletedTherapy ⟨[], []⟩ (prepareTherapy recC9W)).refs.filter
          isAliasRow = []) :=
  ⟨by decide, c9_cap_drop recC9W (by decide)⟩

lemma getRecordById_error_of_not_mem (s : Store)
    (cid : String) (hn : cid ∉ s.identities.map TherapyRec.concept_id) :
    getRecordById s cid = Except.error PyErr.recordNotFound := by
  have hfind : s.identities.find? (idKeyPred cid) = none := by
    cases ho : s.identities.find? (idKeyPred cid) with
    | none => rfl
    | some t' =>
      exfalso
      have hmem := List.mem_of_find?_eq_some ho
      have hpt' := List.find?_some ho
      have hcid : t'.concept_id = cid := by
        have := (Bool.and_eq_true _ _).mp hpt'
        exact eq_of_beq this.2
      exact hn (List.mem_map.mpr ⟨t', hmem, hcid⟩)
  unfold getRecordById
  rw [hfind]

/-- Claim C10: `Database.get_record_by_id` returns a record exactly when
the argument matches a stored concept id character for character, casing
included (the partition key is lower-cased, the sort key matched
exactly); for any concept id not stored under that exact casing —
including a differently-cased variant of a stored one — it raises
`RecordNotFoundError`, and the raise propagates out of
`_create_record_id_set` when merge group discovery feeds it such an id. -/
theorem c10_exact_case_lookup (s : Store) (hw : wellFormedStore s)
    (cid : String) :
    ((∃ r, getRecordById s cid = Except.ok r ∧ r.concept_id = cid)
      ↔ cid ∈ s.identities.map TherapyRec.concept_id)
    ∧ (cid ∉ s.identities.map TherapyRec.concept_id →
        getRecordById s cid = Except.error PyErr.recordNotFound
        ∧ ∀ fuel obs, createRecordIdSet s (fuel + 1) (PyVal.str cid) obs
            = Except.error PyErr.recordNotFound) := by
  constructor
  · constructor
    · rintro ⟨r, hok, hcid⟩
      unfold getRecordById at hok
      cases hf : s.identities.find? (idKeyPred cid) with
      | none => rw [hf] at hok; exact absurd hok (by simp)
      | some t =>
        rw [hf] at hok
        have ht : t = r := by injection hok
        exact List.mem_map.mpr ⟨t, List.mem_of_find?_eq_some hf, by rw [ht, hcid]⟩
    · intro hm
      rcases List.mem_map.mp hm with ⟨t, htmem, htc⟩
      have hpt : idKeyPred cid t = true := by
        have hlat := hw t htmem
        unfold idKeyPred
        rw [hlat, htc]
        simp
      have hsome : (s.identities.find? (idKeyPred cid)).isSome :=
        List.find?_isSome.mpr ⟨t, htmem, hpt⟩
      cases ho : s.identities.find? (idKeyPred cid) with
      | none => rw [ho] at hsome; exact absurd hsome (by simp)
      | some t' =>
        have hpt' := List.find?_some ho
        have hcid' : t'.concept_id = cid := by
          have := (Bool.and_eq_true _ _).mp hpt'
          exact eq_of_beq this.2
        refine ⟨t', ?_, hcid'⟩
        unfold getRecordById
        rw [ho]
  · intro hn
    have herr := getRecordById_error_of_not_mem s cid hn
    refine ⟨herr, ?_⟩
    intro fuel obs
    unfold createRecordIdSet
    simp only [pyHashable, if_true, reduceIte, herr]

/-- Witness for `c10_exact_case_lookup` at a concrete well-formed store
holding `ncit:C1`. -/
theorem c10_exact_case_lookup_witness :
    wellFormedStore storeC10
    ∧ (((∃ r, getRecordById storeC10 "ncit:C1" = Except.ok r
          ∧ r.concept_id = "ncit:C1")
        ↔ "ncit:C1" ∈ storeC10.identities.map TherapyRec.concept_id)
      ∧ ("ncit:C1" ∉ storeC10.identities.map TherapyRec.concept_id →
          getRecordById storeC10 "ncit:C1" = Except.error PyErr.recordNotFound
          ∧ ∀ fuel obs,
            createRecordIdSet storeC10 (fuel + 1) (PyVal.str "ncit:C1") obs
              = Except.error PyErr.recordNotFound)) :=
  ⟨by decide, c10_exact_case_lookup storeC10 (by decide) "ncit:C1"⟩
